import Mathlib

/-!
Verification of the two-stage thermodynamic engine of
`pycycle/cea/new_thermo.py` (the `Properties` and `Thermo` OpenMDAO groups)
against its natural-language specification.

The orchestration code (`Properties.setup`, `Thermo.initialize`,
`Thermo.setup`) is embedded structurally: a group is a list of subsystems
together with a list of connections between promoted variable names, exactly
as built by the `add_subsystem` / `connect` calls in the source.

The numerical components the groups instantiate (`chem_eq.ChemEq`,
`PropsRHS`, `om.LinearSystemComp`, `PropsCalcs`, `species_data.Thermo`) are
not part of the source tree; where a claim depends on them they are modelled
from the specification, as marked in the individual doc comments.
-/

/-- A temperature-range segment of a species thermo record: a validity
interval `[T_min, T_max]` and polynomial coefficient sets for the reduced
functions Cp/R, H/RT and S/R (spec section 3, "Species record"). -/
structure TempSegment where
  T_min : ℚ
  T_max : ℚ
  cp_coeffs : List ℚ
  hrt_coeffs : List ℚ
  sr_coeffs : List ℚ
  deriving DecidableEq

/-- A species record: identifier, molecular weight, element-count
stoichiometry (association list from element name to count), and the
temperature-range-indexed coefficient segments (spec section 3). -/
structure Species where
  name : String
  mw : ℚ
  comp : List (String × ℚ)
  segments : List TempSegment
  deriving DecidableEq

/-- The species thermo table handed to the engine: the element names it
tracks and the species records (spec sections 2 and 6). -/
structure SpeciesTable where
  elements : List String
  species : List Species
  deriving DecidableEq

/-- `thermo.num_element` as read by `Properties.setup` (line 22 of the
source): the number of elements in the species table. -/
def SpeciesTable.num_element (t : SpeciesTable) : Nat :=
  t.elements.length

/-- Stoichiometric coefficient `a_ij`: count of element `e` in species
`sp`, zero when the species does not contain the element. -/
def Species.aCoeff (sp : Species) (e : String) : ℚ :=
  (sp.comp.lookup e).getD 0

/-- Modelled from the spec: `species_data.py` is not under `src/`.
`species_data.Thermo(thermo_data, elements)` (source line 71) selects the
requested species records from the data source and derives the element set
from their stoichiometry. -/
structure ThermoDataSource where
  products : List Species
  deriving DecidableEq

/-- Modelled from the spec: construction of the `cea_data` species table
from a data source and the requested species dictionary keys
(`species_data.Thermo`, source lines 71-72). -/
def speciesDataThermo (dat : ThermoDataSource) (init : List (String × ℚ)) :
    SpeciesTable :=
  let sps := dat.products.filter (fun sp => (init.map Prod.fst).contains sp.name)
  { elements := (sps.flatMap (fun sp => sp.comp.map Prod.fst)).dedup
    species := sps }

/-- The `thermo_dict` option of the `Thermo` group (source lines 59-60 and
the `__main__` usage): a method tag, the requested species, and the thermo
data source. -/
structure ThermoDict where
  method : String
  elements : List (String × ℚ)
  thermo_data : ThermoDataSource
  deriving DecidableEq

/-- The kinds of components instantiated by the two groups, each carrying
the constructor arguments it is given in the source. -/
inductive Component where
  | PropsRHS (thermo : SpeciesTable)
  | LinearSystemComp (size : Nat)
  | PropsCalcs (thermo : SpeciesTable)
  | ChemEq (thermo : SpeciesTable) (mode : String)
  | PropertiesGroup (thermo : SpeciesTable)
  | EngUnitProps (thermo : SpeciesTable) (fl_name : String)
  deriving DecidableEq

/-- One `add_subsystem` call: local name, component, promoted inputs and
promoted outputs. -/
structure Subsystem where
  name : String
  comp : Component
  promotes_inputs : List String
  promotes_outputs : List String
  deriving DecidableEq

/-- One directed connection produced by `self.connect(src, tgt)` (a call
with a list target produces one `Connection` per target). -/
structure Connection where
  src : String
  tgt : String
  deriving DecidableEq

/-- A constructed group model: its subsystems in declaration order and its
connections. -/
structure GroupModel where
  subsystems : List Subsystem
  connections : List Connection
  deriving DecidableEq

/-- Look up a subsystem of a group by its local name. -/
def GroupModel.findSub (m : GroupModel) (nm : String) : Option Subsystem :=
  m.subsystems.find? (fun s => s.name == nm)

/-- The promoted outputs of the named subsystem (empty when absent). -/
def GroupModel.subOutputs (m : GroupModel) (nm : String) : List String :=
  ((m.findSub nm).map (fun s => s.promotes_outputs)).getD []

/-- Embedding of `Properties.setup` (source lines 19-38): adds the
sensitivity-system builder `TP2ls`, the two linear solvers `ls2t` / `ls2p`
of size `num_element + 1`, and the property calculator `tp2props`, then
wires the single matrix `TP2ls.lhs_TP` into both solvers, the two
right-hand sides into their respective solvers, and the two solution
vectors into `tp2props.result_T` / `tp2props.result_P`. -/
def propertiesSetup (thermo : SpeciesTable) : GroupModel :=
  let ne1 := thermo.num_element + 1
  { subsystems := [
      { name := "TP2ls", comp := Component.PropsRHS thermo,
        promotes_inputs := ["T", "n", "n_moles", "b0"], promotes_outputs := [] },
      { name := "ls2t", comp := Component.LinearSystemComp ne1,
        promotes_inputs := [], promotes_outputs := [] },
      { name := "ls2p", comp := Component.LinearSystemComp ne1,
        promotes_inputs := [], promotes_outputs := [] },
      { name := "tp2props", comp := Component.PropsCalcs thermo,
        promotes_inputs := ["n", "n_moles", "T", "P"],
        promotes_outputs := ["h", "S", "gamma", "Cp", "Cv", "rho", "R"] } ]
    connections := [
      { src := "TP2ls.lhs_TP", tgt := "ls2t.A" },
      { src := "TP2ls.lhs_TP", tgt := "ls2p.A" },
      { src := "TP2ls.rhs_T", tgt := "ls2t.b" },
      { src := "TP2ls.rhs_P", tgt := "ls2p.b" },
      { src := "ls2t.x", tgt := "tp2props.result_T" },
      { src := "ls2p.x", tgt := "tp2props.result_P" } ] }

/-- The six values accepted by the `mode` option of `Thermo.initialize`
(source lines 47-51). -/
def modeValues : List String :=
  ["total_TP", "total_SP", "total_hP", "static_MN", "static_A", "static_Ps"]

/-- A failure of `Thermo.setup` itself: either the Python unbound-local
`NameError` produced when a branch never assigned `base_thermo`, or (never
produced by `setup`) a typed failure from the engine's error taxonomy. -/
inductive SetupFailure where
  | nameError (nm : String)
  | typed (nm : String)
  deriving DecidableEq

/-- Embedding of `Thermo.setup` (source lines 62-119).  The `method` field
selects the component set: only the `'CEA'` branch assigns `cea_data`,
`base_thermo`, `in_vars` and `out_vars`; the `'Ideal'` and `'Tabular'`
branches are `pass`, so the subsequent `add_subsystem('thermo_TP',
base_thermo, ...)` call raises an unbound-name error.  The `mode` option is
read (source line 64) but every use of it is commented out (lines 99-109),
so it does not influence the constructed model. -/
def thermoSetup (fl_name : String) (mode : String) (td : ThermoDict) :
    Except SetupFailure GroupModel :=
  let method := td.method
  let assigned : Option (SpeciesTable × Component × List String × List String) :=
    if method = "CEA" then
      let cea_data := speciesDataThermo td.thermo_data td.elements
      some (cea_data, Component.ChemEq cea_data "T", ["b0", "T", "P"], ["n", "n_moles"])
    else
      none
  match assigned with
  | none => Except.error (SetupFailure.nameError "base_thermo")
  | some (cea_data, base_thermo, in_vars, out_vars) =>
      Except.ok
        { subsystems := [
            { name := "thermo_TP", comp := base_thermo,
              promotes_inputs := in_vars, promotes_outputs := out_vars },
            { name := "props", comp := Component.PropertiesGroup cea_data,
              promotes_inputs := ["T", "P", "n", "n_moles", "b0"],
              promotes_outputs := ["gamma", "Cp", "Cv", "rho", "R", "S", "h"] },
            { name := "flow", comp := Component.EngUnitProps cea_data fl_name,
              promotes_inputs := ["T", "P", "h", "S", "gamma", "Cp", "Cv", "rho",
                                  "n", "n_moles", "R", "b0"],
              promotes_outputs := [fl_name ++ ":*"] } ]
          connections := [] }

/-- The error taxonomy of the engine (spec section 7). -/
inductive CoreError where
  | InvalidCompositionError
  | ConvergenceError
  | SingularMatrixError
  | OutOfRangeError
  | PropertyComputationError
  deriving DecidableEq

/-- `true` exactly when a temperature segment's validity interval covers the
queried temperature. -/
def segmentCovers (seg : TempSegment) (T : ℚ) : Bool :=
  decide (seg.T_min ≤ T) && decide (T ≤ seg.T_max)

/-- `true` exactly when at least one of the species' temperature segments
covers the queried temperature. -/
def speciesCovers (sp : Species) (T : ℚ) : Bool :=
  sp.segments.any (fun seg => segmentCovers seg T)

/-- Modelled from the spec (section 6): the core requires, for every
required species, at least one valid temperature segment covering the
queried `T`, and fails with `OutOfRangeError` otherwise.  The table-lookup
code enforcing this is not under `src/`. -/
def checkTempRange (table : SpeciesTable) (T : ℚ) : Except CoreError Unit :=
  if table.species.all (fun sp => speciesCovers sp T) then
    Except.ok ()
  else
    Except.error CoreError.OutOfRangeError

/-- Modelled from the spec (section 4.1): the solver fails with
`InvalidCompositionError` if `b0` contains negative entries or sums to
zero.  The validation code is not under `src/`. -/
def checkComposition (b0 : List ℚ) : Except CoreError Unit :=
  if b0.any (fun x => decide (x < 0)) || decide (b0.sum = 0) then
    Except.error CoreError.InvalidCompositionError
  else
    Except.ok ()

/-- Evaluate a polynomial coefficient list at `T` (Horner form), the
reduced-function representation of spec section 3. -/
def polyEval (cs : List ℚ) (T : ℚ) : ℚ :=
  cs.foldr (fun c acc => c + T * acc) 0

/-- The temperature segment of a species applicable at `T`, when any. -/
def segmentFor (sp : Species) (T : ℚ) : Option TempSegment :=
  sp.segments.find? (fun seg => segmentCovers seg T)

/-- Reduced heat capacity Cp/R of a species at `T` from its applicable
segment (zero when `T` is uncovered; evaluation is gated by
`checkTempRange` upstream). -/
def cpOverR (sp : Species) (T : ℚ) : ℚ :=
  ((segmentFor sp T).map (fun seg => polyEval seg.cp_coeffs T)).getD 0

/-- Reduced enthalpy H/RT of a species at `T`. -/
def hOverRT (sp : Species) (T : ℚ) : ℚ :=
  ((segmentFor sp T).map (fun seg => polyEval seg.hrt_coeffs T)).getD 0

/-- Reduced entropy S/R of a species at `T`. -/
def sOverR (sp : Species) (T : ℚ) : ℚ :=
  ((segmentFor sp T).map (fun seg => polyEval seg.sr_coeffs T)).getD 0

/-- Sum of `f sp n_i` over the species of the table paired with the
mole-number vector `n`. -/
def sumSpecies (table : SpeciesTable) (n : List ℚ) (f : Species → ℚ → ℚ) : ℚ :=
  (List.zipWith f table.species n).sum

/-- Modelled from the spec: `props_rhs.py` (the `PropsRHS` component, the
Sensitivity System Builder) is not under `src/`.  Per spec section 4.2 the
output is a pure function of the converged equilibrium state `(n, n_moles,
T, table)`: `A` holds, for each pair of elements plus the extra total-mole
row/column, the converged-point second-derivative structure built from `n`,
`n_moles` and species stoichiometry; `rhs_T` aggregates each species' Cp/R
at `T` weighted by mole fraction per element; `rhs_P` aggregates the
mole-fraction weightings alone.  `b0` is accepted because the source wires
it into the component (source line 24), but the spec formulas do not
involve it. -/
def propsRHSbuild (n : List ℚ) (n_moles : ℚ) (T : ℚ) (b0 : List ℚ)
    (table : SpeciesTable) : List (List ℚ) × List ℚ × List ℚ :=
  let ne := table.num_element
  let elemAt := fun (j : Nat) => table.elements.getD j ""
  let entry := fun (j k : Nat) =>
    if j < ne then
      (if k < ne then
        sumSpecies table n (fun sp ni => sp.aCoeff (elemAt j) * sp.aCoeff (elemAt k) * ni)
      else
        sumSpecies table n (fun sp ni => sp.aCoeff (elemAt j) * ni))
    else
      (if k < ne then
        sumSpecies table n (fun sp ni => sp.aCoeff (elemAt k) * ni)
      else
        sumSpecies table n (fun _ ni => ni) - n_moles)
  let A := (List.range (ne + 1)).map (fun j => (List.range (ne + 1)).map (fun k => entry j k))
  let rhs_T := (List.range (ne + 1)).map (fun j =>
    if j < ne then
      sumSpecies table n (fun sp ni => sp.aCoeff (elemAt j) * (ni / n_moles) * cpOverR sp T)
    else
      sumSpecies table n (fun sp ni => (ni / n_moles) * cpOverR sp T))
  let rhs_P := (List.range (ne + 1)).map (fun j =>
    if j < ne then
      sumSpecies table n (fun sp ni => sp.aCoeff (elemAt j) * (ni / n_moles))
    else
      sumSpecies table n (fun _ ni => ni / n_moles))
  (A, rhs_T, rhs_P)

/-- First row of a list of rows with a nonzero leading coefficient,
together with the remaining rows, for Gaussian elimination. -/
def pivotSplit : List (List ℚ) → Option (List ℚ × List (List ℚ))
  | [] => none
  | r :: rs =>
      if r.headD 0 ≠ 0 then
        some (r, rs)
      else
        (pivotSplit rs).map (fun pr => (pr.1, r :: pr.2))

/-- Eliminate the leading coefficient of row `r` against pivot row `p` and
drop the leading column. -/
def reduceRow (p r : List ℚ) : List ℚ :=
  (List.zipWith (fun ri pi => ri - (r.headD 0 / p.headD 1) * pi) r p).tail

/-- Back-substitution step: recover the pivot variable from pivot row `p`
(augmented, right-hand side last) and the already-solved tail `xs`. -/
def backSub (p : List ℚ) (xs : List ℚ) : ℚ :=
  let c0 := p.headD 1
  let rest := p.tail
  let rhs := rest.getLastD 0
  let coeffs := rest.dropLast
  (rhs - (List.zipWith (fun c x => c * x) coeffs xs).sum) / c0

/-- Fuel-indexed Gaussian elimination on an augmented matrix; `none` when
no nonzero pivot can be found (numerically singular matrix). -/
def gaussSolveAux : Nat → List (List ℚ) → Option (List ℚ)
  | 0, _ => some []
  | fuel + 1, rows =>
      match pivotSplit rows with
      | none => none
      | some pr =>
          (gaussSolveAux fuel (pr.2.map (fun r => reduceRow pr.1 r))).map
            (fun xs => backSub pr.1 xs :: xs)

/-- Modelled from the spec (section 4.3): the Linear Solver
(`om.LinearSystemComp`) solves `A·x = rhs` by dense elimination and fails
(here: `none`) when `A` is numerically singular; it is a stateless
utility. -/
def gaussSolve (A : List (List ℚ)) (b : List ℚ) : Option (List ℚ) :=
  gaussSolveAux A.length (List.zipWith (fun row bi => row ++ [bi]) A b)

/-- The property set returned by the engine (spec section 6). -/
structure Outputs where
  n : List ℚ
  n_moles : ℚ
  h : ℚ
  S : ℚ
  gamma : ℚ
  Cp : ℚ
  Cv : ℚ
  rho : ℚ
  R : ℚ
  deriving DecidableEq

/-- The universal gas constant of the fixed internal unit system (spec
section 6; the concrete value is a unit-convention constant). -/
def Runiv : ℚ := 8.314462618

/-- Modelled from the spec: `props_calcs.py` (the `PropsCalcs` component,
the Property Calculator) is not under `src/`.  Transcribes the formulas of
spec section 4.4: `R` from total moles over mixture mass; `h` as
mole-fraction-weighted species enthalpy; `S` from the entropy polynomials
plus the mixing term (the natural-log function `lnF` is threaded as a
parameter, the embedding being over `ℚ`); equilibrium `Cp` as the frozen
contribution plus the reaction term read off the total-moles entry of
`result_T`; `Cv` from `Cp` via the volume expansivity/compressibility
identity on entries of `result_T` / `result_P`; `gamma = Cp/Cv`; `rho` from
the ideal-gas law. -/
def propsCalcs (lnF : ℚ → ℚ) (n : List ℚ) (n_moles T P : ℚ)
    (result_T result_P : List ℚ) (table : SpeciesTable) : Outputs :=
  let xs := n.map (fun ni => ni / n_moles)
  let mixMass := (List.zipWith (fun sp ni => ni * sp.mw) table.species n).sum
  let Rspec := Runiv * n_moles / mixMass
  let h := (List.zipWith (fun sp xi => xi * hOverRT sp T) table.species xs).sum * Runiv * T
  let S := (List.zipWith (fun sp xi => xi * sOverR sp T) table.species xs).sum * Runiv
           - Runiv * (xs.map (fun x => x * lnF x)).sum
  let cpFrozen := (List.zipWith (fun sp xi => xi * cpOverR sp T) table.species xs).sum * Runiv
  let dlnn_dlnT := result_T.getLastD 0
  let dlnn_dlnP := result_P.getLastD 0
  let Cp := cpFrozen + Runiv * dlnn_dlnT
  let dlvt := dlnn_dlnT
  let dlvp := dlnn_dlnP + 1
  let Cv := Cp - Runiv * dlvt ^ 2 / dlvp
  let gamma := Cp / Cv
  let mixMW := mixMass / n_moles
  let rho := P * mixMW / (n_moles * Runiv * T)
  { n := n, n_moles := n_moles, h := h, S := S, gamma := gamma,
    Cp := Cp, Cv := Cv, rho := rho, R := Rspec }

/-- Modelled from the spec: `chem_eq.py` (the Newton iteration internals of
the Equilibrium Solver) is not under `src/`.  Spec section 4.1 describes a
damped-Newton loop; its per-iteration update, residual measure, tolerance,
iteration budget, initial state and result extraction are abstracted as
fields, leaving the loop structure and failure contract concrete. -/
structure SolverCfg (σ : Type) where
  init : List ℚ → ℚ → ℚ → SpeciesTable → σ
  step : σ → σ
  residual : σ → ℚ
  tol : ℚ
  maxIter : Nat
  extract : σ → List ℚ × ℚ

/-- Modelled from the spec (section 4.1): the bounded Newton loop.  With
fuel `k` the states `s, step s, ..., step^k s` are tested against the
tolerance in turn; exhausting the budget without convergence is a hard
`ConvergenceError`. -/
def newtonLoop (step : σ → σ) (residual : σ → ℚ) (tol : ℚ) :
    Nat → σ → Except CoreError σ
  | 0, s =>
      if residual s < tol then Except.ok s else Except.error CoreError.ConvergenceError
  | k + 1, s =>
      if residual s < tol then Except.ok s else newtonLoop step residual tol k (step s)

/-- The trajectory of the Newton loop: `iterSeq step s0 j` is the state
after `j` applications of `step` to `s0`. -/
def iterSeq (step : σ → σ) (s0 : σ) : Nat → σ
  | 0 => s0
  | j + 1 => step (iterSeq step s0 j)

/-- Modelled from the spec (section 4.1): `solve(b0, T, P, table) ->
(n, n_moles)` runs the bounded Newton loop from the initial state and
extracts the converged mole numbers; a loop failure propagates. -/
def eqSolve (cfg : SolverCfg σ) (b0 : List ℚ) (T P : ℚ) (table : SpeciesTable) :
    Except CoreError (List ℚ × ℚ) :=
  (newtonLoop cfg.step cfg.residual cfg.tol cfg.maxIter (cfg.init b0 T P table)).map
    cfg.extract

/-- Modelled from the spec (sections 2 and 6) and the connection graph of
`Properties.setup`: the full evaluation pipeline Table → Equilibrium Solver
→ Sensitivity Builder → Linear Solver (twice, against the one matrix) →
Property Calculator, invoked as a pure function of `(b0, T, P, table)`. -/
def coreEval (cfg : SolverCfg σ) (lnF : ℚ → ℚ) (b0 : List ℚ) (T P : ℚ)
    (table : SpeciesTable) : Except CoreError Outputs :=
  match checkTempRange table T with
  | Except.error e => Except.error e
  | Except.ok _ =>
    match checkComposition b0 with
    | Except.error e => Except.error e
    | Except.ok _ =>
      match eqSolve cfg b0 T P table with
      | Except.error e => Except.error e
      | Except.ok np =>
        let A := (propsRHSbuild np.1 np.2 T b0 table).1
        let rhs_T := (propsRHSbuild np.1 np.2 T b0 table).2.1
        let rhs_P := (propsRHSbuild np.1 np.2 T b0 table).2.2
        match gaussSolve A rhs_T with
        | none => Except.error CoreError.SingularMatrixError
        | some result_T =>
          match gaussSolve A rhs_P with
          | none => Except.error CoreError.SingularMatrixError
          | some result_P =>
            Except.ok (propsCalcs lnF np.1 np.2 T P result_T result_P table)

/-- `true` exactly when an engine result is the `OutOfRangeError`
failure. -/
def resultIsOutOfRange : Except CoreError Outputs → Bool
  | Except.error CoreError.OutOfRangeError => true
  | _ => false

/-- Example species record for CO, for concrete witness evaluations. -/
def spCO : Species :=
  { name := "CO", mw := 28.01, comp := [("C", 1), ("O", 1)],
    segments := [{ T_min := 200, T_max := 6000, cp_coeffs := [7/2],
                   hrt_coeffs := [4], sr_coeffs := [5] }] }

/-- Example species record for CO2, for concrete witness evaluations. -/
def spCO2 : Species :=
  { name := "CO2", mw := 44.01, comp := [("C", 1), ("O", 2)],
    segments := [{ T_min := 200, T_max := 6000, cp_coeffs := [9/2],
                   hrt_coeffs := [5], sr_coeffs := [6] }] }

/-- Example species record for O2, for concrete witness evaluations. -/
def spO2 : Species :=
  { name := "O2", mw := 32, comp := [("O", 2)],
    segments := [{ T_min := 200, T_max := 6000, cp_coeffs := [7/2],
                   hrt_coeffs := [7/2], sr_coeffs := [5] }] }

/-- Example thermo data source holding the CO/CO2/O2 records. -/
def egDataSource : ThermoDataSource :=
  { products := [spCO, spCO2, spO2] }

/-- The species dictionary of the source's `__main__` scenario:
`{'CO': 1, 'CO2': 1, 'O2': 1}`. -/
def egElems : List (String × ℚ) :=
  [("CO", 1), ("CO2", 1), ("O2", 1)]

/-- Example `thermo_dict` with method `'CEA'`. -/
def egDict : ThermoDict :=
  { method := "CEA", elements := egElems, thermo_data := egDataSource }

/-- The CO/CO2/O2 species table, for concrete witness evaluations. -/
def egTable3 : SpeciesTable :=
  { elements := ["C", "O"], species := [spCO, spCO2, spO2] }

/-- A one-element, one-species table, for concrete full-pipeline
evaluations. -/
def egTable1 : SpeciesTable :=
  { elements := ["O"], species := [spO2] }

/-- Example solver configuration whose initial state is already converged,
used to exercise the pipeline on concrete inputs. -/
def cfgConv : SolverCfg (List ℚ) :=
  { init := fun b0 _ _ _ => b0, step := id, residual := fun _ => 0, tol := 1,
    maxIter := 10, extract := fun s => (s, s.sum) }

/-- Example solver configuration with the iteration budget set to `1` whose
residual never meets the tolerance, for the convergence-failure scenario. -/
def cfgBudget1 : SolverCfg (List ℚ) :=
  { init := fun b0 _ _ _ => b0, step := fun s => s.map (fun x => x / 2),
    residual := fun s => s.sum, tol := 1 / 1000000,
    maxIter := 1, extract := fun s => (s, s.sum) }

/-- Placeholder logarithm for concrete witness evaluations (its value never
enters any verified property). -/
def lnZero : ℚ → ℚ := fun _ => 0

theorem newtonLoop_error_eq {σ : Type} (step : σ → σ) (residual : σ → ℚ) (tol : ℚ) :
    ∀ (k : Nat) (s : σ) (e : CoreError),
      newtonLoop step residual tol k s = Except.error e →
      e = CoreError.ConvergenceError := by
  intro k
  induction k with
  | zero =>
      intro s e h
      by_cases hr : residual s < tol
      · simp [newtonLoop, hr] at h
      · simp [newtonLoop, hr] at h
        exact h.symm
  | succ k ih =>
      intro s e h
      by_cases hr : residual s < tol
      · simp [newtonLoop, hr] at h
      · simp only [newtonLoop, hr, if_false] at h
        exact ih _ _ h

theorem newtonLoop_ok_converged {σ : Type} (step : σ → σ) (residual : σ → ℚ) (tol : ℚ) :
    ∀ (k : Nat) (s s' : σ),
      newtonLoop step residual tol k s = Except.ok s' → residual s' < tol := by
  intro k
  induction k with
  | zero =>
      intro s s' h
      by_cases hr : residual s < tol
      · simp [newtonLoop, hr] at h
        exact h ▸ hr
      · simp [newtonLoop, hr] at h
  | succ k ih =>
      intro s s' h
      by_cases hr : residual s < tol
      · simp [newtonLoop, hr] at h
        exact h ▸ hr
      · simp only [newtonLoop, hr, if_false] at h
        exact ih _ _ h

theorem iterSeq_shift {σ : Type} (step : σ → σ) (s : σ) :
    ∀ j, iterSeq step (step s) j = iterSeq step s (j + 1) := by
  intro j
  induction j with
  | zero => rfl
  | succ j ih => simp [iterSeq, ih]

theorem newtonLoop_all_fail {σ : Type} (step : σ → σ) (residual : σ → ℚ) (tol : ℚ) :
    ∀ (k : Nat) (s : σ),
      (∀ j, j ≤ k → ¬ residual (iterSeq step s j) < tol) →
      newtonLoop step residual tol k s = Except.error CoreError.ConvergenceError := by
  intro k
  induction k with
  | zero =>
      intro s h
      have h0 : ¬ residual s < tol := h 0 (Nat.le_refl 0)
      simp only [newtonLoop]
      rw [if_neg h0]
  | succ k ih =>
      intro s h
      have hrest : ∀ j, j ≤ k → ¬ residual (iterSeq step (step s) j) < tol := by
        intro j hj
        rw [iterSeq_shift]
        exact h (j + 1) (Nat.succ_le_succ hj)
      have h0 : ¬ residual s < tol := h 0 (Nat.zero_le _)
      simp only [newtonLoop]
      rw [if_neg h0]
      exact ih (step s) hrest

theorem eqSolve_error_eq {σ : Type} (cfg : SolverCfg σ) (b0 : List ℚ) (T P : ℚ)
    (table : SpeciesTable) (e : CoreError) :
    eqSolve cfg b0 T P table = Except.error e → e = CoreError.ConvergenceError := by
  intro h
  unfold eqSolve at h
  cases hn : newtonLoop cfg.step cfg.residual cfg.tol cfg.maxIter (cfg.init b0 T P table) with
  | error e2 =>
      rw [hn] at h
      simp [Except.map] at h
      exact h ▸ newtonLoop_error_eq _ _ _ _ _ _ hn
  | ok s =>
      rw [hn] at h
      simp [Except.map] at h

/-- Claim C2: in every evaluation the temperature-sensitivity and
pressure-sensitivity systems are solved against one and the same
coefficient matrix — the single matrix `TP2ls.lhs_TP` produced by the
sensitivity builder is the only source wired into `ls2t.A` and `ls2p.A`,
`rhs_T` and `rhs_P` are their respective right-hand sides, and the two
solution vectors `ls2t.x` / `ls2p.x` are consumed only by the property
calculator `tp2props` as its `result_T` / `result_P` inputs. -/
theorem props_sensitivity_wiring (thermo : SpeciesTable) :
    ((propertiesSetup thermo).connections.filter (fun c => c.tgt == "ls2t.A") =
      [{ src := "TP2ls.lhs_TP", tgt := "ls2t.A" }]) ∧
    ((propertiesSetup thermo).connections.filter (fun c => c.tgt == "ls2p.A") =
      [{ src := "TP2ls.lhs_TP", tgt := "ls2p.A" }]) ∧
    ((propertiesSetup thermo).connections.filter (fun c => c.tgt == "ls2t.b") =
      [{ src := "TP2ls.rhs_T", tgt := "ls2t.b" }]) ∧
    ((propertiesSetup thermo).connections.filter (fun c => c.tgt == "ls2p.b") =
      [{ src := "TP2ls.rhs_P", tgt := "ls2p.b" }]) ∧
    ((propertiesSetup thermo).connections.filter (fun c => c.src == "ls2t.x") =
      [{ src := "ls2t.x", tgt := "tp2props.result_T" }]) ∧
    ((propertiesSetup thermo).connections.filter (fun c => c.src == "ls2p.x") =
      [{ src := "ls2p.x", tgt := "tp2props.result_P" }]) ∧
    ((propertiesSetup thermo).findSub "TP2ls").map (fun s => s.comp) =
      some (Component.PropsRHS thermo) ∧
    ((propertiesSetup thermo).findSub "tp2props").map (fun s => s.comp) =
      some (Component.PropsCalcs thermo) :=
  ⟨rfl, rfl, rfl, rfl, rfl, rfl, rfl, rfl⟩

/-- Claim C3: the sensitivity coefficient matrix is square of size
`num_elements + 1`, both linear-solver components are instantiated with
exactly that size, and the two right-hand-side vectors have exactly that
length, where `num_elements` is the number of elements in the species
table. -/
theorem sensitivity_system_sizes (thermo : SpeciesTable) (n : List ℚ)
    (n_moles T : ℚ) (b0 : List ℚ) :
    (propertiesSetup thermo).findSub "ls2t" =
      some { name := "ls2t", comp := Component.LinearSystemComp (thermo.elements.length + 1),
             promotes_inputs := [], promotes_outputs := [] } ∧
    (propertiesSetup thermo).findSub "ls2p" =
      some { name := "ls2p", comp := Component.LinearSystemComp (thermo.elements.length + 1),
             promotes_inputs := [], promotes_outputs := [] } ∧
    (propsRHSbuild n n_moles T b0 thermo).1.length = thermo.elements.length + 1 ∧
    ((propsRHSbuild n n_moles T b0 thermo).1.all
      fun row => row.length == thermo.elements.length + 1) = true ∧
    (propsRHSbuild n n_moles T b0 thermo).2.1.length = thermo.elements.length + 1 ∧
    (propsRHSbuild n n_moles T b0 thermo).2.2.length = thermo.elements.length + 1 := by
  refine ⟨rfl, rfl, ?_, ?_, ?_, ?_⟩ <;>
    simp [propsRHSbuild, SpeciesTable.num_element, List.all_eq_true, List.mem_map]

/-- Claim C4: invoked with method `'CEA'` in mode `'total_TP'`, the core
exposes exactly the property set `{n, n_moles, h, S, gamma, Cp, Cv, rho,
R}` — `n` and `n_moles` promoted from the equilibrium stage `thermo_TP`
and the seven gas properties promoted from the property stage `props`. -/
theorem core_outputs_partition (fl : String) (es : List (String × ℚ))
    (dat : ThermoDataSource) :
    (thermoSetup fl "total_TP" { method := "CEA", elements := es, thermo_data := dat }).map
      (fun m => (m.subOutputs "thermo_TP", m.subOutputs "props")) =
      Except.ok (["n", "n_moles"], ["gamma", "Cp", "Cv", "rho", "R", "S", "h"]) ∧
    (["n", "n_moles"] ++ ["gamma", "Cp", "Cv", "rho", "R", "S", "h"]).toFinset =
      ({"n", "n_moles", "h", "S", "gamma", "Cp", "Cv", "rho", "R"} : Finset String) :=
  ⟨rfl, by decide⟩

/-- Claim C5: the Sensitivity System Builder's output `(A, rhs_T, rhs_P)`
is a function of exactly `(n, n_moles, T, table)`: two invocations that
agree on those produce identical results regardless of any other input, in
particular the elemental composition `b0`. -/
theorem props_rhs_independent_of_b0 (n : List ℚ) (n_moles T : ℚ)
    (b0 b0' : List ℚ) (table : SpeciesTable) :
    propsRHSbuild n n_moles T b0 table = propsRHSbuild n n_moles T b0' table :=
  rfl

/-- Claim C6: the engine evaluation is the `OutOfRangeError` failure (and
so returns no result) exactly when some required species has no valid
temperature segment covering the queried `T`; when every required species
covers `T`, no `OutOfRangeError` is raised. -/
theorem out_of_range_error_iff {σ : Type} (cfg : SolverCfg σ) (lnF : ℚ → ℚ)
    (b0 : List ℚ) (T P : ℚ) (table : SpeciesTable) :
    resultIsOutOfRange (coreEval cfg lnF b0 T P table) =
      !(table.species.all fun sp => speciesCovers sp T) := by
  by_cases hc : (table.species.all fun sp => speciesCovers sp T) = true
  · unfold coreEval checkTempRange
    rw [if_pos hc, hc]
    unfold checkComposition
    by_cases hb : (b0.any fun x => decide (x < 0)) || decide (b0.sum = 0)
    · rw [if_pos hb]
      rfl
    · rw [if_neg hb]
      cases he : eqSolve cfg b0 T P table with
      | error e =>
          rw [eqSolve_error_eq cfg b0 T P table e he]
          rfl
      | ok np =>
          cases h1 : gaussSolve (propsRHSbuild np.1 np.2 T b0 table).1
              (propsRHSbuild np.1 np.2 T b0 table).2.1 with
          | none => simp [h1, resultIsOutOfRange]
          | some rT =>
              cases h2 : gaussSolve (propsRHSbuild np.1 np.2 T b0 table).1
                  (propsRHSbuild np.1 np.2 T b0 table).2.2 with
              | none => simp [h1, h2, resultIsOutOfRange]
              | some rP => simp [h1, h2, resultIsOutOfRange]
  · unfold coreEval checkTempRange
    rw [if_neg hc]
    simp [resultIsOutOfRange, Bool.not_eq_true _ ▸ hc]

/-- Claim C7: the Equilibrium Solver never returns an unconverged mole
vector — an `ok` result of `eqSolve` is extracted from a state whose
residual is below tolerance — and whenever no state visited within the
iteration budget meets the tolerance, `eqSolve` fails with
`ConvergenceError`. -/
theorem eq_solver_convergence_contract {σ : Type} (cfg : SolverCfg σ)
    (b0 : List ℚ) (T P : ℚ) (table : SpeciesTable) :
    (∀ p, eqSolve cfg b0 T P table = Except.ok p →
      ∃ s, cfg.residual s < cfg.tol ∧ cfg.extract s = p) ∧
    ((∀ j, j ≤ cfg.maxIter →
        ¬ cfg.residual (iterSeq cfg.step (cfg.init b0 T P table) j) < cfg.tol) →
      eqSolve cfg b0 T P table = Except.error CoreError.ConvergenceError) := by
  constructor
  · intro p hp
    unfold eqSolve at hp
    cases hn : newtonLoop cfg.step cfg.residual cfg.tol cfg.maxIter (cfg.init b0 T P table) with
    | error e =>
        rw [hn] at hp
        simp [Except.map] at hp
    | ok s =>
        rw [hn] at hp
        simp [Except.map] at hp
        exact ⟨s, newtonLoop_ok_converged _ _ _ _ _ _ hn, hp⟩
  · intro h
    unfold eqSolve
    rw [newtonLoop_all_fail cfg.step cfg.residual cfg.tol cfg.maxIter (cfg.init b0 T P table) h]
    rfl

/-- Witness for C7: the already-converged configuration returns a
converged extraction, and with the iteration budget set to `1` on the
non-trivial CO/CO2/O2 composition `[2, 1, 1]` whose residual stays above
tolerance, `ConvergenceError` is raised. -/
theorem eq_solver_convergence_contract_witness :
    (∃ s, cfgConv.residual s < cfgConv.tol ∧ cfgConv.extract s = ([1, 1, 1], 3)) ∧
    eqSolve cfgBudget1 [2, 1, 1] 4000 1 egTable3 = Except.error CoreError.ConvergenceError :=
  ⟨(eq_solver_convergence_contract cfgConv [1, 1, 1] 300 1 egTable3).1 ([1, 1, 1], 3)
      (by norm_num [eqSolve, newtonLoop, cfgConv, Except.map]),
   (eq_solver_convergence_contract cfgBudget1 [2, 1, 1] 4000 1 egTable3).2
      (by
        intro j hj
        have hj1 : j ≤ 1 := hj
        interval_cases j <;> norm_num [iterSeq, cfgBudget1])⟩

/-- Claim C8: two separate cold-start evaluations of the engine on the
same `(b0, T, P)` and species table yield the same result — in particular
the same converged mole-number vector `n`; the pipeline threads no state
across calls. -/
theorem engine_cold_start_idempotent {σ : Type} (cfg : SolverCfg σ) (lnF : ℚ → ℚ)
    (b0 b0' : List ℚ) (T T' P P' : ℚ) (table table' : SpeciesTable)
    (hb : b0 = b0') (hT : T = T') (hP : P = P') (ht : table = table') :
    coreEval cfg lnF b0 T P table = coreEval cfg lnF b0' T' P' table' ∧
    (coreEval cfg lnF b0 T P table).map (fun o => o.n) =
      (coreEval cfg lnF b0' T' P' table').map (fun o => o.n) := by
  subst hb
  subst hT
  subst hP
  subst ht
  exact ⟨rfl, rfl⟩

/-- Witness for C8: two cold-start runs of the pipeline on the
single-species table agree, and the run in question actually converges to
an `ok` result. -/
theorem engine_cold_start_idempotent_witness :
    (coreEval cfgConv lnZero [1] 300 1 egTable1 = coreEval cfgConv lnZero [1] 300 1 egTable1 ∧
      (coreEval cfgConv lnZero [1] 300 1 egTable1).map (fun o => o.n) =
        (coreEval cfgConv lnZero [1] 300 1 egTable1).map (fun o => o.n)) ∧
    (coreEval cfgConv lnZero [1] 300 1 egTable1).isOk = true :=
  ⟨engine_cold_start_idempotent cfgConv lnZero [1] [1] 300 300 1 1 egTable1 egTable1
      rfl rfl rfl rfl,
   by norm_num [coreEval, checkTempRange, checkComposition, eqSolve, newtonLoop, cfgConv,
     egTable1, spO2, speciesCovers, segmentCovers, propsRHSbuild, sumSpecies,
     Species.aCoeff, SpeciesTable.num_element, gaussSolve, gaussSolveAux, pivotSplit,
     reduceRow, backSub, cpOverR, segmentFor, polyEval, propsCalcs, hOverRT, sOverR,
     Runiv, lnZero, List.range_succ, List.lookup, Except.map, Except.isOk, Except.toBool]⟩

/-- Claim C9: the `mode` option, though it accepts six values, has no
effect on the constructed model — `Thermo.setup` builds the same
subsystem structure and connections for any two accepted mode values, so
every mode behaves as `'total_TP'`. -/
theorem mode_has_no_effect (fl m1 m2 : String) (td : ThermoDict)
    (h1 : m1 ∈ modeValues) (h2 : m2 ∈ modeValues) :
    thermoSetup fl m1 td = thermoSetup fl m2 td :=
  rfl

/-- Witness for C9: the `'total_SP'` and `'static_MN'` modes build the
identical model on the example CEA dictionary. -/
theorem mode_has_no_effect_witness :
    thermoSetup "flow" "total_SP" egDict = thermoSetup "flow" "static_MN" egDict :=
  mode_has_no_effect "flow" "total_SP" "static_MN" egDict (by decide) (by decide)

/-- Claim C10: constructing the engine with method `'Ideal'` or
`'Tabular'` fails during setup with the unbound-name error on
`base_thermo` rather than with any typed failure from the error taxonomy,
while method `'CEA'` produces a working model. -/
theorem non_cea_method_unbound_name (fl mode : String) (td : ThermoDict) :
    ((td.method = "Ideal" ∨ td.method = "Tabular") →
      thermoSetup fl mode td = Except.error (SetupFailure.nameError "base_thermo")) ∧
    (td.method = "CEA" → ∃ m, thermoSetup fl mode td = Except.ok m) := by
  obtain ⟨mth, es, dat⟩ := td
  constructor
  · rintro (h | h) <;> (simp only at h; subst h; rfl)
  · intro h
    simp only at h
    subst h
    exact ⟨_, rfl⟩

/-- Witness for C10: on the example data, method `'Ideal'` fails with the
unbound-name error on `base_thermo` and method `'CEA'` yields a model. -/
theorem non_cea_method_unbound_name_witness :
    thermoSetup "flow" "total_TP"
        { method := "Ideal", elements := egElems, thermo_data := egDataSource } =
      Except.error (SetupFailure.nameError "base_thermo") ∧
    ∃ m, thermoSetup "flow" "total_TP" egDict = Except.ok m :=
  ⟨(non_cea_method_unbound_name "flow" "total_TP"
      { method := "Ideal", elements := egElems, thermo_data := egDataSource }).1 (Or.inl rfl),
   (non_cea_method_unbound_name "flow" "total_TP" egDict).2 rfl⟩
